import Mathlib

/-!
# Verification of the PetMatch adoption-browser (`src/app.py`)

Shallow embedding of the Streamlit single-page app in `src/app.py`.
Python dictionaries holding optional / nullable JSON fields are embedded as
structures with `Option`-typed fields, Python truthiness of such a field is
made explicit by small helper functions, the mutable `st.session_state` is
embedded as a `SessionState` value threaded through each operation, and
network effects are embedded by passing the outcome of the (unique) HTTP
request an operation may issue as an explicit argument while the function
returns the number of requests it issued.
-/

/-- Python truthiness of a nullable string field (`None` and `""` are falsy). -/
def pyStrTruthy : Option String → Bool
  | none => false
  | some s => s ≠ ""

/-- Python truthiness of a nullable JSON boolean (`None` and `False` are falsy). -/
def pyValTruthy : Option Bool → Bool
  | none => false
  | some b => b

/-- `pet['breeds']` : nullable `primary`/`secondary` names plus the `mixed` flag. -/
structure Breeds where
  primary : Option String
  secondary : Option String
  mixed : Bool
  deriving Repr, DecidableEq

/-- `pet['colors']` : up to three nullable color names. -/
structure Colors where
  primary : Option String
  secondary : Option String
  tertiary : Option String
  deriving Repr, DecidableEq

/-- `pet['contact']['address']` : nullable city / state / postcode fields. -/
structure Address where
  city : Option String
  state : Option String
  postcode : Option String
  deriving Repr, DecidableEq

/-- `pet['contact']` : nullable email / phone plus the address block. -/
structure Contact where
  email : Option String
  phone : Option String
  address : Address
  deriving Repr, DecidableEq

/-- `pet['environment']`.  Each flag is a JSON key that may be absent
(outer `none`), present with value `null` (`some none`), or present with a
boolean (`some (some b)`); the code tests `'k' in env and env['k'] is not None`. -/
structure Environment where
  children : Option (Option Bool)
  dogs : Option (Option Bool)
  cats : Option (Option Bool)
  deriving Repr, DecidableEq

/-- `pet['attributes']` : each key may be absent (`none`) or carry a boolean.
The code reaches this block only when the whole `attributes` dict is truthy,
which is embedded by making the record's `attributes` field an `Option`. -/
structure Attributes where
  special_needs : Option Bool
  house_trained : Option Bool
  shots_current : Option Bool
  spayed_neutered : Option Bool
  deriving Repr, DecidableEq

/-- One animal record as returned by the upstream API, restricted to the
fields `src/app.py` reads.  `description` is kept as a character list so that
the Python slice `description[:n]` is `List.take n`.  `hasLocationKey` embeds
the `'location' in pet` membership test done by the card renderer. -/
structure PetRecord where
  id : Nat
  name : String
  type : String
  status : String
  age : Option String
  gender : Option String
  size : Option String
  breeds : Breeds
  colors : Colors
  contact : Contact
  environment : Environment
  attributes : Option Attributes
  description : Option (List Char)
  photos : List String
  organization_id : Option String
  url : Option String
  hasLocationKey : Bool
  deriving Repr, DecidableEq

/-- The JSON body of a successful `GET /v2/animals` call.  A successful
response is a non-empty dict that always carries the `animals` key, so the
code's guard `results and 'animals' in results` holds exactly when the call
returned a body at all (`search_pets` returns `None` on any failure). -/
structure SearchResponse where
  animals : List PetRecord
  deriving Repr, DecidableEq

/-- The `st.session_state` slots initialised at the top of `src/app.py`. -/
structure SessionState where
  access_token : Option String
  token_expires : Int
  search_results : Option SearchResponse
  selected_pet : Option Nat
  page : Nat
  favorites : List PetRecord
  deriving Repr, DecidableEq

/-- The state a fresh session starts in (`st.session_state` initialisation). -/
def initialSession : SessionState :=
  { access_token := none, token_expires := 0, search_results := none,
    selected_pet := none, page := 1, favorites := [] }

/-- The two configured secrets, after the `os.environ.get(..) or st.secrets.get(..)`
fallback chain has been resolved (`none` = absent in both places). -/
structure Config where
  api_key : Option String
  api_secret : Option String
  deriving Repr, DecidableEq

/-- Outcome of the one `requests.post` to the token endpoint: a parsed JSON
body `{access_token, expires_in}`, or a raised `RequestException`. -/
inductive TokenHttp where
  | ok (access_token : String) (expires_in : Int)
  | exn (msg : String)
  deriving Repr, DecidableEq

/-- `get_access_token` (src/app.py lines 75-105).  Returns the token (or
`none`), the session state after the call, and the number of HTTP requests
issued.  `now` is the value of `time.time()` during the call. -/
def get_access_token (cfg : Config) (now : Int) (http : TokenHttp)
    (st : SessionState) : Option String × SessionState × Nat :=
  if pyStrTruthy st.access_token ∧ now < st.token_expires then
    (st.access_token, st, 0)
  else if ¬ pyStrTruthy cfg.api_key ∨ ¬ pyStrTruthy cfg.api_secret then
    (none, st, 0)
  else
    match http with
    | .ok tok expires_in =>
        let st := { st with access_token := some tok,
                            token_expires := now + expires_in - 60 }
        (st.access_token, st, 1)
    | .exn _ => (none, st, 1)

/-- A value placed in the `params` dict: a string or an int. -/
inductive ParamVal where
  | s (v : String)
  | n (v : Int)
  deriving Repr, DecidableEq

/-- The inputs of the search form exactly as `main` reads them back from the
widgets (src/app.py lines 484-507). -/
structure SearchForm where
  animal_type : String
  location : String
  distance : Int
  age : String
  size : String
  gender : String
  good_with_children : Bool
  good_with_dogs : Bool
  good_with_cats : Bool
  house_trained : Bool
  special_needs : Bool
  deriving Repr, DecidableEq

/-- `animal_type.split(" ")[0]` : the characters before the first space.
(Python's `split(" ")` on a string with no leading space puts exactly that
segment first, and puts `""` first when the string is empty or starts with a
space - the same value `takeWhile` yields.) -/
def firstWord (s : String) : String :=
  String.mk (s.toList.takeWhile (fun c => c != ' '))

/-- The `params` dict built by `main` on form submission (src/app.py lines
511-540), embedded as an insertion-ordered association list (the keys are
pairwise distinct, so lookup semantics agree with the Python dict). -/
def build_search_params (f : SearchForm) : List (String × ParamVal) :=
  let params : List (String × ParamVal) :=
    [("type", .s (firstWord f.animal_type)),
     ("location", .s f.location),
     ("distance", .n f.distance),
     ("status", .s "adoptable"),
     ("sort", .s "distance"),
     ("limit", .n 100)]
  let params := if f.age ≠ "Doesn't Matter" then params ++ [("age", .s f.age)] else params
  let params := if f.size ≠ "Doesn't Matter" then params ++ [("size", .s f.size)] else params
  let params := if f.gender ≠ "Doesn't Matter" then params ++ [("gender", .s f.gender)] else params
  let params := if f.good_with_children then params ++ [("good_with_children", .n 1)] else params
  let params := if f.good_with_dogs then params ++ [("good_with_dogs", .n 1)] else params
  let params := if f.good_with_cats then params ++ [("good_with_cats", .n 1)] else params
  let params := if f.house_trained then params ++ [("house_trained", .n 1)] else params
  let params := if f.special_needs then params ++ [("special_needs", .n 1)] else params
  params

/-- The user-visible outcome of submitting the form: `st.success(f"Found {n} pets!")`
or `st.error("No pets found with those criteria. ...")`. -/
inductive SubmitMsg where
  | success (found : Nat)
  | error
  deriving Repr, DecidableEq

/-- The submission step of `main` (src/app.py lines 542-549): `results` is
what `search_pets` returned (`none` on token or request failure, otherwise
the parsed body, which always carries the `animals` key). -/
def submit_search (st : SessionState) (results : Option SearchResponse) :
    SessionState × SubmitMsg :=
  match results with
  | some r =>
      ({ st with search_results := some r, page := 1 }, .success r.animals.length)
  | none => (st, .error)

/-- `total_pages = (len(results) + 9) // 10` (src/app.py line 557). -/
def total_pages (n : Nat) : Nat := (n + 9) / 10

/-- `results[start_idx:end_idx]` with `start_idx = (page - 1) * 10` and
`end_idx = min(start_idx + 10, len(results))` (src/app.py lines 568-571).
A Python slice `l[a:b]` with `0 ≤ a ≤ b` is `(l.drop a).take (b - a)`. -/
def page_slice (results : List PetRecord) (page : Nat) : List PetRecord :=
  let start_idx := (page - 1) * 10
  let end_idx := min (start_idx + 10) results.length
  (results.drop start_idx).take (end_idx - start_idx)

/-- The guarded append behind every "Add to Favorites" button
(src/app.py lines 453-457 via the membership check, lines 384-389 via the
`is_favorite` guard choosing which button exists). -/
def add_to_favorites (favorites : List PetRecord) (pet : PetRecord) : List PetRecord :=
  if pet.id ∈ favorites.map (fun p => p.id) then favorites
  else favorites ++ [pet]

/-- `[p for p in st.session_state.favorites if p['id'] != pet['id']]`
(src/app.py lines 460, 392). -/
def remove_from_favorites (favorites : List PetRecord) (petId : Nat) : List PetRecord :=
  favorites.filter (fun p => p.id ≠ petId)

/-- The "View Details" click handler: `st.session_state.selected_pet = pet['id']`
(src/app.py lines 448-450). -/
def view_details (st : SessionState) (petId : Nat) : SessionState :=
  { st with selected_pet := some petId }

/-- The back-button click handler: `st.session_state.selected_pet = None`
(src/app.py lines 300-302). -/
def go_back (st : SessionState) : SessionState :=
  { st with selected_pet := none }

/-- What the Search tab renders. -/
inductive SearchTabView where
  | detail (petId : Nat)
  | listing
  deriving Repr, DecidableEq

/-- The Search tab's dispatch `if st.session_state.selected_pet:` (src/app.py
line 475); a selected id of `0` is falsy in Python, hence the inner test. -/
def search_tab_view (st : SessionState) : SearchTabView :=
  match st.selected_pet with
  | some i => if i ≠ 0 then .detail i else .listing
  | none => .listing

/-- `'k' in pet['environment'] and pet['environment']['k'] is not None`
(src/app.py lines 251, 258, 265). -/
def envSet : Option (Option Bool) → Bool
  | some (some _) => true
  | _ => false

/-- The truthiness of the environment value once `envSet` holds. -/
def envVal : Option (Option Bool) → Bool
  | some (some b) => b
  | _ => false

/-- `get_compatibility_message` (src/app.py lines 247-287): a sequence of
conditional `messages.append(..)` steps over an initially empty list. -/
def get_compatibility_message (pet : PetRecord) : List String :=
  let messages : List String := []
  let messages :=
    if envSet pet.environment.children then
      (if envVal pet.environment.children then messages ++ ["✅ Good with children"]
       else messages ++ ["❌ Not recommended for homes with children"])
    else messages
  let messages :=
    if envSet pet.environment.dogs then
      (if envVal pet.environment.dogs then messages ++ ["✅ Good with dogs"]
       else messages ++ ["❌ Not recommended for homes with dogs"])
    else messages
  let messages :=
    if envSet pet.environment.cats then
      (if envVal pet.environment.cats then messages ++ ["✅ Good with cats"]
       else messages ++ ["❌ Not recommended for homes with cats"])
    else messages
  match pet.attributes with
  | some attrs =>
      let messages :=
        if pyValTruthy attrs.special_needs then messages ++ ["⚠️ Has special needs"]
        else messages
      let messages :=
        if pyValTruthy attrs.house_trained then messages ++ ["✅ House-trained"]
        else if attrs.house_trained.isSome then messages ++ ["❌ Not house-trained"]
        else messages
      let messages :=
        if pyValTruthy attrs.shots_current then messages ++ ["✅ Vaccinations up to date"]
        else messages
      let messages :=
        if pyValTruthy attrs.spayed_neutered then messages ++ ["✅ Spayed/neutered"]
        else messages
      messages
  | none => messages

/-- Specification-side view of one environment flag's contribution. -/
def env_flag_messages (flag : Option (Option Bool)) (pos neg : String) : List String :=
  if envSet flag then (if envVal flag then [pos] else [neg]) else []

/-- Specification-side view of the special-needs contribution. -/
def special_needs_messages : Option Attributes → List String
  | some a => if pyValTruthy a.special_needs then ["⚠️ Has special needs"] else []
  | none => []

/-- Specification-side view of the house-trained contribution. -/
def house_trained_messages : Option Attributes → List String
  | some a =>
      if pyValTruthy a.house_trained then ["✅ House-trained"]
      else if a.house_trained.isSome then ["❌ Not house-trained"]
      else []
  | none => []

/-- Specification-side view of the vaccination contribution. -/
def shots_messages : Option Attributes → List String
  | some a => if pyValTruthy a.shots_current then ["✅ Vaccinations up to date"] else []
  | none => []

/-- Specification-side view of the spay/neuter contribution. -/
def spay_messages : Option Attributes → List String
  | some a => if pyValTruthy a.spayed_neutered then ["✅ Spayed/neutered"] else []
  | none => []

/-- Python truthiness of a nullable description (`None` and `""` are falsy). -/
def pyDescTruthy : Option (List Char) → Bool
  | none => false
  | some d => d ≠ []

/-- How an f-string interpolates a possibly-`None` value. -/
def pyShowOpt : Option String → String
  | some s => s
  | none => "None"

/-- `description[:budget] + ('...' if len(description) > budget else '')`
(src/app.py line 358 with budget 500, line 444 with budget 300). -/
def truncated_description (d : List Char) (budget : Nat) : List Char :=
  d.take budget ++ (if budget < d.length then ['.', '.', '.'] else [])

/-- `[c for c in [primary, secondary, tertiary] if c]` (src/app.py lines 340, 435). -/
def colors_list (c : Colors) : List String :=
  (([c.primary, c.secondary, c.tertiary].filter (fun o => pyStrTruthy o)).map
    (fun o => o.getD ""))

/-- `breed_text += s` when `breed_text` may still be `None`: Python raises
`TypeError` on `None + str`, which the embedding returns as an error. -/
def pyPlusEq (bt : Option String) (s : String) : Except String (Option String) :=
  match bt with
  | some t => Except.ok (some (t ++ s))
  | none => Except.error "TypeError: unsupported operand types for +=: NoneType and str"

/-- The breed line of `display_pet_details` (src/app.py lines 325-329):
`breed_text = pet['breeds']['primary']` is NOT guarded by a presence check,
and the two `+=` steps fire whenever `secondary` is truthy / `mixed` is set. -/
def detail_breed_text (b : Breeds) : Except String (Option String) := do
  let bt : Option String := b.primary
  let bt ← if pyStrTruthy b.secondary then pyPlusEq bt (" & " ++ b.secondary.getD "")
           else pure bt
  let bt ← if b.mixed then pyPlusEq bt " (Mixed)" else pure bt
  pure bt

/-- The breed block of `display_pet_card` (src/app.py lines 426-432), guarded
by `if pet['breeds']['primary']:`, inside which `breed_text` is a string. -/
def card_breed_lines (b : Breeds) : List String :=
  if pyStrTruthy b.primary then
    let breed_text := b.primary.getD ""
    let breed_text := if pyStrTruthy b.secondary then breed_text ++ " & " ++ b.secondary.getD ""
                      else breed_text
    let breed_text := if b.mixed then breed_text ++ " (Mixed)" else breed_text
    ["**Breed:** " ++ breed_text]
  else []

/-- The contact block of `display_pet_details` (src/app.py lines 368-377);
each line is guarded, and `postcode or ''` maps `None` to `""`. -/
def detail_contact_lines (c : Contact) : List String :=
  let contact_info : List String := []
  let contact_info :=
    if pyStrTruthy c.email then contact_info ++ ["**Email:** " ++ c.email.getD ""]
    else contact_info
  let contact_info :=
    if pyStrTruthy c.phone then contact_info ++ ["**Phone:** " ++ c.phone.getD ""]
    else contact_info
  let contact_info :=
    if pyStrTruthy c.address.city && pyStrTruthy c.address.state then
      contact_info ++ ["**Location:** " ++ c.address.city.getD "" ++ ", " ++
        c.address.state.getD "" ++ " " ++ c.address.postcode.getD ""]
    else contact_info
  contact_info

/-- The text content produced by `display_pet_details` (src/app.py lines
293-381) for a fetched record, as an ordered line list.  Photo entries are
embedded as their URL, and title-casing of the status tag is presentational
and not modelled.  The computation fails exactly where Python would raise:
in the unguarded `breed_text +=` steps. -/
def display_pet_details_render (pet : PetRecord) : Except String (List String) := do
  let headerLines := [pet.name, pet.status]
  let photoLines := if pet.photos ≠ [] then pet.photos.take 3 else ["placeholder-image"]
  let bt ← detail_breed_text pet.breeds
  let details := ["**Type:** " ++ pet.type,
                  "**Breed:** " ++ pyShowOpt bt,
                  "**Age:** " ++ pyShowOpt pet.age,
                  "**Gender:** " ++ pyShowOpt pet.gender,
                  "**Size:** " ++ pyShowOpt pet.size]
  let colors := colors_list pet.colors
  let details :=
    if colors ≠ [] then details ++ ["**Colors:** " ++ String.intercalate ", " colors]
    else details
  let compat := get_compatibility_message pet
  let descLines :=
    if pyDescTruthy pet.description then
      ["About", String.mk (truncated_description (pet.description.getD []) 500)]
    else []
  let orgLines :=
    if pyStrTruthy pet.organization_id then
      ["**Organization:** " ++ pet.organization_id.getD ""]
    else []
  let contact := detail_contact_lines pet.contact
  let urlLines := if pyStrTruthy pet.url then ["View on Petfinder: " ++ pet.url.getD ""] else []
  pure (headerLines ++ photoLines ++ details ++ compat ++ descLines ++
        ["Adoption Information"] ++ orgLines ++ contact ++ urlLines)

/-- The text content produced by the effective `display_pet_card`
(src/app.py lines 397-444; the earlier definition at lines 179-226 is
shadowed by this one, so the card description budget in force is 300). -/
def display_pet_card_render (pet : PetRecord) : List String :=
  let photoLines := if pet.photos ≠ [] then [pet.photos.headD ""] else ["placeholder-image"]
  let tags : List String := [if pet.status = "adoptable" then "Adoptable" else pet.status]
  let tags := if pyStrTruthy pet.age then tags ++ [pet.age.getD ""] else tags
  let tags := if pyStrTruthy pet.gender then tags ++ [pet.gender.getD ""] else tags
  let tags := if pyStrTruthy pet.size then tags ++ [pet.size.getD ""] else tags
  let breedLines := card_breed_lines pet.breeds
  let colorLines :=
    if pyStrTruthy pet.colors.primary || pyStrTruthy pet.colors.secondary ||
       pyStrTruthy pet.colors.tertiary then
      ["**Colors:** " ++ String.intercalate ", " (colors_list pet.colors)]
    else []
  let locLines :=
    if pet.hasLocationKey && pyStrTruthy pet.contact.address.city &&
       pyStrTruthy pet.contact.address.state then
      ["**Location:** " ++ pet.contact.address.city.getD "" ++ ", " ++
        pet.contact.address.state.getD ""]
    else []
  let descLines :=
    if pyDescTruthy pet.description then
      [String.mk (truncated_description (pet.description.getD []) 300)]
    else []
  photoLines ++ [pet.name] ++ tags ++ breedLines ++ colorLines ++ locLines ++ descLines

/-- C1: with a truthy cached token whose expiry lies in the future,
`get_access_token` returns exactly the cached token and issues no request;
with the expiry in the past (credentials being configured) it issues exactly
one refresh request, and on a successful refresh it stores the new token with
expiry `now + expires_in - 60` and returns that token. -/
theorem c1_token_caching (cfg : Config) (now : Int) (http : TokenHttp) (st : SessionState) :
    (pyStrTruthy st.access_token = true → now < st.token_expires →
      get_access_token cfg now http st = (st.access_token, st, 0)) ∧
    (st.token_expires ≤ now → pyStrTruthy cfg.api_key = true →
      pyStrTruthy cfg.api_secret = true →
      (get_access_token cfg now http st).2.2 = 1) ∧
    (∀ tok expires_in, st.token_expires ≤ now → pyStrTruthy cfg.api_key = true →
      pyStrTruthy cfg.api_secret = true → http = TokenHttp.ok tok expires_in →
      get_access_token cfg now http st =
        (some tok, { st with access_token := some tok,
                             token_expires := now + expires_in - 60 }, 1)) := by
  refine ⟨?_, ?_, ?_⟩
  · intro h1 h2
    simp [get_access_token, h1, h2]
  · intro h1 h2 h3
    have hlt : ¬ now < st.token_expires := not_lt.mpr h1
    cases http <;> simp [get_access_token, hlt, h2, h3]
  · intro tok expires_in h1 h2 h3 h4
    have hlt : ¬ now < st.token_expires := not_lt.mpr h1
    subst h4
    simp [get_access_token, hlt, h2, h3]

theorem c1_token_caching_witness :
    get_access_token ⟨some "key", some "secret"⟩ 100 (TokenHttp.ok "newtok" 900)
      { initialSession with access_token := some "cached", token_expires := 200 } =
      (some "cached",
       { initialSession with access_token := some "cached", token_expires := 200 }, 0) ∧
    get_access_token ⟨some "key", some "secret"⟩ 300 (TokenHttp.ok "newtok" 900)
      { initialSession with access_token := some "cached", token_expires := 200 } =
      (some "newtok",
       { initialSession with access_token := some "newtok", token_expires := 300 + 900 - 60 }, 1) := by
  constructor
  · exact (c1_token_caching ⟨some "key", some "secret"⟩ 100 (TokenHttp.ok "newtok" 900)
      { initialSession with access_token := some "cached", token_expires := 200 }).1
      (by decide) (by decide)
  · exact (c1_token_caching ⟨some "key", some "secret"⟩ 300 (TokenHttp.ok "newtok" 900)
      { initialSession with access_token := some "cached", token_expires := 200 }).2.2
      "newtok" 900 (by decide) (by decide) (by decide) rfl

/-- C10: every failing path of `get_access_token` (missing key/secret, or a
raised request exception) returns `none` and leaves `access_token` and
`token_expires` exactly as they were; more generally a `none` return never
mutates the session state. -/
theorem c10_failure_preserves_cache (cfg : Config) (now : Int) (http : TokenHttp)
    (st : SessionState) :
    (¬ (pyStrTruthy st.access_token = true ∧ now < st.token_expires) →
      (pyStrTruthy cfg.api_key = false ∨ pyStrTruthy cfg.api_secret = false) →
      get_access_token cfg now http st = (none, st, 0)) ∧
    (∀ msg, ¬ (pyStrTruthy st.access_token = true ∧ now < st.token_expires) →
      pyStrTruthy cfg.api_key = true → pyStrTruthy cfg.api_secret = true →
      http = TokenHttp.exn msg →
      get_access_token cfg now http st = (none, st, 1)) ∧
    ((get_access_token cfg now http st).1 = none →
      (get_access_token cfg now http st).2.1 = st) := by
  refine ⟨?_, ?_, ?_⟩
  · intro h1 h2
    rcases h2 with h2 | h2 <;> simp [get_access_token, h1, h2]
  · intro msg h1 h2 h3 h4
    subst h4
    simp [get_access_token, h1, h2, h3]
  · intro hnone
    by_cases h1 : pyStrTruthy st.access_token = true ∧ now < st.token_expires
    · simp [get_access_token, h1]
    · simp only [get_access_token, if_neg h1] at hnone ⊢
      cases hk : pyStrTruthy cfg.api_key <;> cases hs : pyStrTruthy cfg.api_secret <;>
        cases http <;> simp_all

theorem c10_failure_preserves_cache_witness :
    get_access_token ⟨none, some "secret"⟩ 50 (TokenHttp.exn "boom") initialSession =
      (none, initialSession, 0) ∧
    get_access_token ⟨some "key", some "secret"⟩ 50 (TokenHttp.exn "boom") initialSession =
      (none, initialSession, 1) := by
  constructor
  · exact (c10_failure_preserves_cache ⟨none, some "secret"⟩ 50 (TokenHttp.exn "boom")
      initialSession).1 (by decide) (by decide)
  · exact (c10_failure_preserves_cache ⟨some "key", some "secret"⟩ 50 (TokenHttp.exn "boom")
      initialSession).2.1 "boom" (by decide) (by decide) (by decide) rfl

/-- A representative well-formed record used to instantiate theorems. -/
def samplePet : PetRecord :=
  { id := 1, name := "Rex", type := "Dog", status := "adoptable",
    age := some "Adult", gender := some "Male", size := some "Medium",
    breeds := ⟨some "Boxer", none, false⟩,
    colors := ⟨some "Brown", none, none⟩,
    contact := ⟨some "shelter@example.org", none, ⟨some "New York", some "NY", some "10001"⟩⟩,
    environment := ⟨none, some (some false), some none⟩,
    attributes := some ⟨some false, some true, some true, some true⟩,
    description := some "A good dog.".toList,
    photos := ["photo-1"], organization_id := some "NY1", url := some "petfinder/rex",
    hasLocationKey := false }

/-- C4: adding a record whose id is already in the favorites list leaves the
list's length unchanged, and removing an id that is not in the list leaves
its length unchanged (the operation is total, so no error is possible). -/
theorem c4_favorites_idempotence (favorites : List PetRecord) (pet : PetRecord) (petId : Nat) :
    (pet.id ∈ favorites.map (fun p => p.id) →
      (add_to_favorites favorites pet).length = favorites.length) ∧
    (petId ∉ favorites.map (fun p => p.id) →
      (remove_from_favorites favorites petId).length = favorites.length) := by
  constructor
  · intro h
    simp [add_to_favorites, h]
  · intro h
    have hfix : favorites.filter (fun p => p.id ≠ petId) = favorites := by
      refine List.filter_eq_self.mpr ?_
      intro a ha
      have hne : a.id ≠ petId :=
        fun hEq => h (hEq ▸ List.mem_map_of_mem (fun p => p.id) ha)
      simpa using hne
    rw [remove_from_favorites, hfix]

theorem c4_favorites_idempotence_witness :
    (add_to_favorites [samplePet] samplePet).length = 1 ∧
    (remove_from_favorites [samplePet] 2).length = 1 := by
  constructor
  · exact (c4_favorites_idempotence [samplePet] samplePet 2).1 (by simp)
  · exact (c4_favorites_idempotence [samplePet] samplePet 2).2 (by simp [samplePet])

/-- C9: "View Details" sets `selected_pet` to the pet's id, so the Search tab
dispatch renders the detail view for that id next (a Petfinder id, being a
positive integer, is truthy); "back" clears the selection, so the dispatch
renders the list again; neither action touches the stored result set or the
favorites list (or the page). -/
theorem c9_selection_frame (st : SessionState) (petId : Nat) :
    (petId ≠ 0 → search_tab_view (view_details st petId) = SearchTabView.detail petId) ∧
    (view_details st petId).selected_pet = some petId ∧
    (view_details st petId).search_results = st.search_results ∧
    (view_details st petId).favorites = st.favorites ∧
    (view_details st petId).page = st.page ∧
    search_tab_view (go_back st) = SearchTabView.listing ∧
    (go_back st).selected_pet = none ∧
    (go_back st).search_results = st.search_results ∧
    (go_back st).favorites = st.favorites ∧
    (go_back st).page = st.page := by
  refine ⟨?_, rfl, rfl, rfl, rfl, ?_, rfl, rfl, rfl, rfl⟩
  · intro h
    simp [search_tab_view, view_details, h]
  · simp [search_tab_view, go_back]

theorem c9_selection_frame_witness :
    search_tab_view (view_details initialSession 7) = SearchTabView.detail 7 :=
  (c9_selection_frame initialSession 7).1 (by decide)

/-- C6 counterexample: a search that succeeds upstream with zero records
(`search_pets` returns a body whose `animals` list is empty) does NOT leave
the stored result set untouched and does NOT produce the error message: the
code stores the empty result set, resets the page, and reports success
("Found 0 pets!"), refuting the claim at this concrete input. -/
theorem c6_empty_search_counterexample :
    (submit_search initialSession (some ⟨[]⟩)).1.search_results = some ⟨[]⟩ ∧
    (submit_search initialSession (some ⟨[]⟩)).2 = SubmitMsg.success 0 :=
  ⟨rfl, rfl⟩

/-- C6 amended: the submission step distinguishes only response-vs-no-response.
Every successful response - its `animals` list empty or not - is stored
wholesale as the new result set with the page reset to 1 and a success
message reporting the count; the "No pets found" error message occurs exactly
when `search_pets` returned nothing, and then the session state is unchanged. -/
theorem c6_submit_search_behavior (st : SessionState) (resp : SearchResponse) :
    submit_search st (some resp) =
      ({ st with search_results := some resp, page := 1 },
       SubmitMsg.success resp.animals.length) ∧
    submit_search st none = (st, SubmitMsg.error) :=
  ⟨rfl, rfl⟩

/-- A conditional `append` step commutes with the accumulated prefix. -/
theorem ite_append_push {α : Type} (c : Prop) [Decidable c] (m x : List α) :
    (if c then m ++ x else m) = m ++ (if c then x else []) := by
  split <;> simp

/-- A two-branch conditional `append` step commutes with the accumulated prefix. -/
theorem ite_append_push2 {α : Type} (c : Prop) [Decidable c] (m x y : List α) :
    (if c then m ++ x else m ++ y) = m ++ (if c then x else y) := by
  split <;> rfl

/-- `build_search_params` decomposes into the six always-present entries
followed by one independent optional segment per filter, in insertion order. -/
theorem build_search_params_decomp (f : SearchForm) :
    build_search_params f =
      [("type", ParamVal.s (firstWord f.animal_type)),
       ("location", ParamVal.s f.location),
       ("distance", ParamVal.n f.distance),
       ("status", ParamVal.s "adoptable"),
       ("sort", ParamVal.s "distance"),
       ("limit", ParamVal.n 100)] ++
      (if f.age ≠ "Doesn't Matter" then [("age", ParamVal.s f.age)] else []) ++
      (if f.size ≠ "Doesn't Matter" then [("size", ParamVal.s f.size)] else []) ++
      (if f.gender ≠ "Doesn't Matter" then [("gender", ParamVal.s f.gender)] else []) ++
      (if f.good_with_children then [("good_with_children", ParamVal.n 1)] else []) ++
      (if f.good_with_dogs then [("good_with_dogs", ParamVal.n 1)] else []) ++
      (if f.good_with_cats then [("good_with_cats", ParamVal.n 1)] else []) ++
      (if f.house_trained then [("house_trained", ParamVal.n 1)] else []) ++
      (if f.special_needs then [("special_needs", ParamVal.n 1)] else []) := by
  simp only [build_search_params, ite_append_push]

/-- C2: every optional filter left at its sentinel ("Doesn't Matter" selects,
unchecked checkboxes) is entirely absent from the constructed query; every
filter that is set appears with its exact mapped value (checked checkboxes
map to the integer 1); and the all-defaults Dog/10001 search yields exactly
the six base parameters. -/
theorem c2_query_construction (f : SearchForm) :
    (f.age = "Doesn't Matter" → (build_search_params f).lookup "age" = none) ∧
    (f.size = "Doesn't Matter" → (build_search_params f).lookup "size" = none) ∧
    (f.gender = "Doesn't Matter" → (build_search_params f).lookup "gender" = none) ∧
    (f.good_with_children = false →
      (build_search_params f).lookup "good_with_children" = none) ∧
    (f.good_with_dogs = false → (build_search_params f).lookup "good_with_dogs" = none) ∧
    (f.good_with_cats = false → (build_search_params f).lookup "good_with_cats" = none) ∧
    (f.house_trained = false → (build_search_params f).lookup "house_trained" = none) ∧
    (f.special_needs = false → (build_search_params f).lookup "special_needs" = none) ∧
    (f.age ≠ "Doesn't Matter" →
      (build_search_params f).lookup "age" = some (ParamVal.s f.age)) ∧
    (f.size ≠ "Doesn't Matter" →
      (build_search_params f).lookup "size" = some (ParamVal.s f.size)) ∧
    (f.gender ≠ "Doesn't Matter" →
      (build_search_params f).lookup "gender" = some (ParamVal.s f.gender)) ∧
    (f.good_with_children = true →
      (build_search_params f).lookup "good_with_children" = some (ParamVal.n 1)) ∧
    (f.good_with_dogs = true →
      (build_search_params f).lookup "good_with_dogs" = some (ParamVal.n 1)) ∧
    (f.good_with_cats = true →
      (build_search_params f).lookup "good_with_cats" = some (ParamVal.n 1)) ∧
    (f.house_trained = true →
      (build_search_params f).lookup "house_trained" = some (ParamVal.n 1)) ∧
    (f.special_needs = true →
      (build_search_params f).lookup "special_needs" = some (ParamVal.n 1)) ∧
    build_search_params
      ⟨"Dog", "10001", 50, "Doesn't Matter", "Doesn't Matter", "Doesn't Matter",
        false, false, false, false, false⟩ =
      [("type", ParamVal.s "Dog"), ("location", ParamVal.s "10001"),
       ("distance", ParamVal.n 50), ("status", ParamVal.s "adoptable"),
       ("sort", ParamVal.s "distance"), ("limit", ParamVal.n 100)] := by
  refine ⟨?_, ?_, ?_, ?_, ?_, ?_, ?_, ?_, ?_, ?_, ?_, ?_, ?_, ?_, ?_, ?_, by decide⟩
  · intro h
    rw [build_search_params_decomp]
    simp [List.lookup_append, apply_ite (List.lookup "age"), List.lookup, h]
  · intro h
    rw [build_search_params_decomp]
    simp [List.lookup_append, apply_ite (List.lookup "size"), List.lookup, h]
  · intro h
    rw [build_search_params_decomp]
    simp [List.lookup_append, apply_ite (List.lookup "gender"), List.lookup, h]
  · intro h
    rw [build_search_params_decomp]
    simp [List.lookup_append, apply_ite (List.lookup "good_with_children"), List.lookup, h]
  · intro h
    rw [build_search_params_decomp]
    simp [List.lookup_append, apply_ite (List.lookup "good_with_dogs"), List.lookup, h]
  · intro h
    rw [build_search_params_decomp]
    simp [List.lookup_append, apply_ite (List.lookup "good_with_cats"), List.lookup, h]
  · intro h
    rw [build_search_params_decomp]
    simp [List.lookup_append, apply_ite (List.lookup "house_trained"), List.lookup, h]
  · intro h
    rw [build_search_params_decomp]
    simp [List.lookup_append, apply_ite (List.lookup "special_needs"), List.lookup, h]
  · intro h
    rw [build_search_params_decomp]
    simp [List.lookup_append, apply_ite (List.lookup "age"), List.lookup, h]
  · intro h
    rw [build_search_params_decomp]
    simp [List.lookup_append, apply_ite (List.lookup "size"), List.lookup, h]
  · intro h
    rw [build_search_params_decomp]
    simp [List.lookup_append, apply_ite (List.lookup "gender"), List.lookup, h]
  · intro h
    rw [build_search_params_decomp]
    simp [List.lookup_append, apply_ite (List.lookup "good_with_children"), List.lookup, h]
  · intro h
    rw [build_search_params_decomp]
    simp [List.lookup_append, apply_ite (List.lookup "good_with_dogs"), List.lookup, h]
  · intro h
    rw [build_search_params_decomp]
    simp [List.lookup_append, apply_ite (List.lookup "good_with_cats"), List.lookup, h]
  · intro h
    rw [build_search_params_decomp]
    simp [List.lookup_append, apply_ite (List.lookup "house_trained"), List.lookup, h]
  · intro h
    rw [build_search_params_decomp]
    simp [List.lookup_append, apply_ite (List.lookup "special_needs"), List.lookup, h]

theorem c2_query_construction_witness :
    (build_search_params
      ⟨"Dog", "10001", 50, "Adult", "Doesn't Matter", "Doesn't Matter",
        true, false, false, false, false⟩).lookup "age" = some (ParamVal.s "Adult") ∧
    (build_search_params
      ⟨"Dog", "10001", 50, "Adult", "Doesn't Matter", "Doesn't Matter",
        true, false, false, false, false⟩).lookup "size" = none ∧
    (build_search_params
      ⟨"Dog", "10001", 50, "Adult", "Doesn't Matter", "Doesn't Matter",
        true, false, false, false, false⟩).lookup "good_with_children" =
      some (ParamVal.n 1) ∧
    (build_search_params
      ⟨"Dog", "10001", 50, "Adult", "Doesn't Matter", "Doesn't Matter",
        true, false, false, false, false⟩).lookup "good_with_dogs" = none := by
  refine ⟨?_, ?_, ?_, ?_⟩
  · exact (c2_query_construction _).2.2.2.2.2.2.2.2.1 (by decide)
  · exact (c2_query_construction _).2.1 (by decide)
  · exact (c2_query_construction _).2.2.2.2.2.2.2.2.2.2.2.1 (by decide)
  · exact (c2_query_construction _).2.2.2.2.1 (by decide)

/-- C3: the displayed page count is the ceiling of `n / 10`; for any page
`p ≥ 1` (the slider's lower bound) the slice shown contains exactly the
records at indices `[(p-1)*10, min(p*10, n))` of the result list; and a
search whose results are stored resets the current page to 1. -/
theorem c3_pagination (n : Nat) (results : List PetRecord) (p : Nat) (st : SessionState)
    (resp : SearchResponse) :
    total_pages n = n ⌈/⌉ 10 ∧
    (1 ≤ p → ∀ i : Nat,
      (page_slice results p)[i]? =
        if (p - 1) * 10 + i < min (p * 10) results.length
        then results[(p - 1) * 10 + i]? else none) ∧
    ((submit_search st (some resp)).1.page = 1 ∧
     (submit_search st (some resp)).1.search_results = some resp) := by
  refine ⟨rfl, ?_, rfl, rfl⟩
  intro hp i
  simp only [page_slice, List.getElem?_take, List.getElem?_drop]
  have hiff : i < min ((p - 1) * 10 + 10) results.length - (p - 1) * 10 ↔
      (p - 1) * 10 + i < min (p * 10) results.length := by omega
  exact if_congr hiff rfl rfl

theorem c3_pagination_witness :
    (page_slice (List.replicate 12 samplePet) 2)[0]? = some samplePet ∧
    total_pages 12 = 2 := by
  constructor
  · have h := (c3_pagination 12 (List.replicate 12 samplePet) 2 initialSession ⟨[]⟩).2.1
      (by decide) 0
    rw [h]
    simp [List.getElem?_replicate]
  · exact (c3_pagination 12 (List.replicate 12 samplePet) 2 initialSession ⟨[]⟩).1

/-- The message list decomposes into one independent segment per flag, in the
source's emission order: children, dogs, cats, special-needs, house-trained,
vaccination, spay/neuter. -/
theorem gcm_decomposition (pet : PetRecord) :
    get_compatibility_message pet =
      env_flag_messages pet.environment.children "✅ Good with children"
        "❌ Not recommended for homes with children" ++
      env_flag_messages pet.environment.dogs "✅ Good with dogs"
        "❌ Not recommended for homes with dogs" ++
      env_flag_messages pet.environment.cats "✅ Good with cats"
        "❌ Not recommended for homes with cats" ++
      special_needs_messages pet.attributes ++
      house_trained_messages pet.attributes ++
      shots_messages pet.attributes ++
      spay_messages pet.attributes := by
  cases hA : pet.attributes with
  | none =>
      simp only [get_compatibility_message, hA, env_flag_messages,
        special_needs_messages, house_trained_messages, shots_messages, spay_messages,
        ite_append_push, ite_append_push2, List.nil_append, List.append_nil]
  | some attrs =>
      simp only [get_compatibility_message, hA, env_flag_messages,
        special_needs_messages, house_trained_messages, shots_messages, spay_messages,
        ite_append_push, ite_append_push2, List.nil_append, List.append_nil]

/-- An environment segment contains no string other than its two statements. -/
theorem count_env_flag_ne (flag : Option (Option Bool)) (pos neg s : String)
    (h1 : s ≠ pos) (h2 : s ≠ neg) : (env_flag_messages flag pos neg).count s = 0 := by
  rcases flag with _ | v
  · simp [env_flag_messages, envSet]
  · rcases v with _ | b
    · simp [env_flag_messages, envSet]
    · cases b <;> simp [env_flag_messages, envSet, envVal, List.count_cons, h1, h2]

/-- The special-needs segment contains only its warning statement. -/
theorem count_special_ne (attrs : Option Attributes) (s : String)
    (h : s ≠ "⚠️ Has special needs") : (special_needs_messages attrs).count s = 0 := by
  rcases attrs with _ | a
  · simp [special_needs_messages]
  · simp [special_needs_messages, apply_ite (List.count s), List.count_cons, h]

/-- The house-trained segment contains only its two statements. -/
theorem count_house_ne (attrs : Option Attributes) (s : String)
    (h1 : s ≠ "✅ House-trained") (h2 : s ≠ "❌ Not house-trained") :
    (house_trained_messages attrs).count s = 0 := by
  rcases attrs with _ | a
  · simp [house_trained_messages]
  · simp only [house_trained_messages]
    split
    · simp [List.count_cons, h1]
    · split
      · simp [List.count_cons, h2]
      · rfl

/-- The vaccination segment contains only its statement. -/
theorem count_shots_ne (attrs : Option Attributes) (s : String)
    (h : s ≠ "✅ Vaccinations up to date") : (shots_messages attrs).count s = 0 := by
  rcases attrs with _ | a
  · simp [shots_messages]
  · simp [shots_messages, apply_ite (List.count s), List.count_cons, h]

/-- The spay/neuter segment contains only its statement. -/
theorem count_spay_ne (attrs : Option Attributes) (s : String)
    (h : s ≠ "✅ Spayed/neutered") : (spay_messages attrs).count s = 0 := by
  rcases attrs with _ | a
  · simp [spay_messages]
  · simp [spay_messages, apply_ite (List.count s), List.count_cons, h]

/-- C5: the compatibility messages decompose into per-flag ternary segments
emitted in the fixed order children, dogs, cats, special-needs,
house-trained, vaccination, spay/neuter; and any record with
`environment.dogs = false` and `environment.cats = null` yields exactly one
negative dogs statement and no cats statement of either polarity. -/
theorem c5_compatibility (pet : PetRecord) :
    get_compatibility_message pet =
      env_flag_messages pet.environment.children "✅ Good with children"
        "❌ Not recommended for homes with children" ++
      env_flag_messages pet.environment.dogs "✅ Good with dogs"
        "❌ Not recommended for homes with dogs" ++
      env_flag_messages pet.environment.cats "✅ Good with cats"
        "❌ Not recommended for homes with cats" ++
      special_needs_messages pet.attributes ++
      house_trained_messages pet.attributes ++
      shots_messages pet.attributes ++
      spay_messages pet.attributes ∧
    (pet.environment.dogs = some (some false) → pet.environment.cats = some none →
      ((get_compatibility_message pet).count "❌ Not recommended for homes with dogs" = 1 ∧
       (get_compatibility_message pet).count "✅ Good with cats" = 0 ∧
       (get_compatibility_message pet).count "❌ Not recommended for homes with cats" = 0)) := by
  refine ⟨gcm_decomposition pet, ?_⟩
  intro hd hc
  rw [gcm_decomposition pet, hd, hc]
  have hdogs : env_flag_messages (some (some false)) "✅ Good with dogs"
      "❌ Not recommended for homes with dogs" = ["❌ Not recommended for homes with dogs"] := by
    simp [env_flag_messages, envSet, envVal]
  have hcats : env_flag_messages (some none) "✅ Good with cats"
      "❌ Not recommended for homes with cats" = ([] : List String) := by
    simp [env_flag_messages, envSet]
  rw [hdogs, hcats]
  simp only [List.count_append]
  refine ⟨?_, ?_, ?_⟩
  · rw [count_env_flag_ne pet.environment.children "✅ Good with children"
        "❌ Not recommended for homes with children"
        "❌ Not recommended for homes with dogs" (by decide) (by decide),
      count_special_ne pet.attributes "❌ Not recommended for homes with dogs" (by decide),
      count_house_ne pet.attributes "❌ Not recommended for homes with dogs"
        (by decide) (by decide),
      count_shots_ne pet.attributes "❌ Not recommended for homes with dogs" (by decide),
      count_spay_ne pet.attributes "❌ Not recommended for homes with dogs" (by decide)]
    simp [List.count_cons]
  · rw [count_env_flag_ne pet.environment.children "✅ Good with children"
        "❌ Not recommended for homes with children" "✅ Good with cats"
        (by decide) (by decide),
      count_special_ne pet.attributes "✅ Good with cats" (by decide),
      count_house_ne pet.attributes "✅ Good with cats" (by decide) (by decide),
      count_shots_ne pet.attributes "✅ Good with cats" (by decide),
      count_spay_ne pet.attributes "✅ Good with cats" (by decide)]
    simp [List.count_cons]
  · rw [count_env_flag_ne pet.environment.children "✅ Good with children"
        "❌ Not recommended for homes with children"
        "❌ Not recommended for homes with cats" (by decide) (by decide),
      count_special_ne pet.attributes "❌ Not recommended for homes with cats" (by decide),
      count_house_ne pet.attributes "❌ Not recommended for homes with cats"
        (by decide) (by decide),
      count_shots_ne pet.attributes "❌ Not recommended for homes with cats" (by decide),
      count_spay_ne pet.attributes "❌ Not recommended for homes with cats" (by decide)]
    simp [List.count_cons]

theorem c5_compatibility_witness :
    (get_compatibility_message samplePet).count "❌ Not recommended for homes with dogs" = 1 ∧
    (get_compatibility_message samplePet).count "✅ Good with cats" = 0 ∧
    (get_compatibility_message samplePet).count "❌ Not recommended for homes with cats" = 0 :=
  (c5_compatibility samplePet).2 rfl rfl

/-- A record with `breeds.primary = null` while `breeds.secondary` is present -
the very shape claim C7 gives as its example of a missing optional sub-field. -/
def nullPrimaryPet : PetRecord :=
  { samplePet with id := 2, breeds := ⟨none, some "Terrier", false⟩ }

/-- C7 (code bug): on a record with `breeds.primary = null` and a present
`breeds.secondary`, the detail renderer evaluates `breed_text += " & ..."`
with `breed_text = None` (src/app.py lines 325-327 are not guarded by a
presence check) and raises `TypeError`, so rendering does NOT complete; the
card renderer guards the same access (line 426) and emits no breed line. -/
theorem c7_detail_render_type_error :
    display_pet_details_render nullPrimaryPet =
      Except.error "TypeError: unsupported operand types for +=: NoneType and str" ∧
    card_breed_lines nullPrimaryPet.breeds = [] ∧
    (display_pet_card_render nullPrimaryPet).length = 8 :=
  ⟨rfl, rfl, rfl⟩

/-- C8: the description budget is 500 characters in the detail view and 300
in the (effective) card view: a 520-character description renders as its
first 500 (resp. 300) characters followed by the `...` marker, a description
at or below the budget renders whole with no marker, and the two renderers
emit exactly these truncations (the card's description is its last line; the
detail view contains its truncation among its lines). -/
theorem c8_description_truncation (d : List Char) :
    (d.length = 520 →
      truncated_description d 500 = d.take 500 ++ ['.', '.', '.'] ∧
      (d.take 500).length = 500 ∧
      truncated_description d 300 = d.take 300 ++ ['.', '.', '.'] ∧
      (d.take 300).length = 300) ∧
    (d.length ≤ 500 → truncated_description d 500 = d) ∧
    (d.length ≤ 300 → truncated_description d 300 = d) ∧
    (∀ pet : PetRecord, pet.description = some d → d ≠ [] →
      (display_pet_card_render pet).getLast? =
        some (String.mk (truncated_description d 300))) ∧
    (∀ pet : PetRecord, pet.description = some d → d ≠ [] →
      ∀ lines, display_pet_details_render pet = Except.ok lines →
        String.mk (truncated_description d 500) ∈ lines) := by
  refine ⟨?_, ?_, ?_, ?_, ?_⟩
  · intro h
    refine ⟨?_, ?_, ?_, ?_⟩ <;>
      simp [truncated_description, h, List.length_take]
  · intro h
    simp [truncated_description, not_lt.mpr h, List.take_of_length_le h]
  · intro h
    simp [truncated_description, Nat.not_lt.mpr h, List.take_of_length_le h]
  · intro pet hdesc hne
    simp only [display_pet_card_render, hdesc]
    have ht : pyDescTruthy (some d) = true := by simp [pyDescTruthy, hne]
    rw [ht]
    simp only [if_true, Option.getD_some]
    exact List.getLast?_concat _
  · intro pet hdesc hne lines hok
    cases hbt : detail_breed_text pet.breeds with
    | error e =>
        rw [display_pet_details_render] at hok
        rw [hbt] at hok
        simp [Bind.bind, Except.bind] at hok
    | ok bt =>
        rw [display_pet_details_render] at hok
        rw [hbt] at hok
        simp only [Bind.bind, Except.bind, Pure.pure, Except.pure, Except.ok.injEq] at hok
        subst hok
        have ht : pyDescTruthy (some d) = true := by simp [pyDescTruthy, hne]
        simp [hdesc, ht, List.mem_append]

theorem c8_description_truncation_witness :
    truncated_description (List.replicate 520 'a') 500 =
      (List.replicate 520 'a').take 500 ++ ['.', '.', '.'] ∧
    truncated_description (List.replicate 520 'a') 300 =
      (List.replicate 520 'a').take 300 ++ ['.', '.', '.'] ∧
    truncated_description (List.replicate 400 'b') 500 = List.replicate 400 'b' ∧
    (display_pet_card_render samplePet).getLast? =
      some (String.mk (truncated_description "A good dog.".toList 300)) := by
  refine ⟨?_, ?_, ?_, ?_⟩
  · exact ((c8_description_truncation (List.replicate 520 'a')).1
      (by rw [List.length_replicate])).1
  · exact ((c8_description_truncation (List.replicate 520 'a')).1
      (by rw [List.length_replicate])).2.2.1
  · exact (c8_description_truncation (List.replicate 400 'b')).2.1
      (by rw [List.length_replicate]; omega)
  · exact (c8_description_truncation "A good dog.".toList).2.2.2.1 samplePet rfl (by decide)
